import Mathlib

/-!
Verification of the cross-margin settlement core of
`solana-cross-margin-settlement` (programs/solana-cross-margin-settlement/src/lib.rs).

The program's only nontrivial logic is the instruction `settle_cross_margin`,
a straight-line state-transition over one `Position` and one `UserBalance`.
We embed it shallowly: machine integers `i64` / `i128` become `Int` together
with explicit range checks, the Rust `checked_sub` / `checked_mul` /
`checked_add` become `Option Int`-valued functions that succeed exactly when
the mathematical result fits the corresponding width, and the Anchor `require!`
early returns become nested `if`s.  The whole instruction becomes a total
function returning the (possibly mutated) position and balance, the optional
error, and the optionally emitted event, so that failure atomicity and event
emission are expressible.
-/

namespace CrossMargin

/-- `i64::MIN` as an integer. -/
def I64_MIN : Int := -(2 ^ 63)

/-- `i64::MAX` as an integer. -/
def I64_MAX : Int := 2 ^ 63 - 1

/-- `i128::MIN` as an integer. -/
def I128_MIN : Int := -(2 ^ 127)

/-- `i128::MAX` as an integer. -/
def I128_MAX : Int := 2 ^ 127 - 1

/-- `x` is representable as an `i64`. -/
abbrev inI64 (x : Int) : Prop := I64_MIN ≤ x ∧ x ≤ I64_MAX

/-- `x` is representable as an `i128`. -/
abbrev inI128 (x : Int) : Prop := I128_MIN ≤ x ∧ x ≤ I128_MAX

/-- Rust `i64::checked_sub`: the exact difference when it fits in `i64`, else `None`. -/
def checkedSubI64 (a b : Int) : Option Int :=
  if inI64 (a - b) then some (a - b) else none

/-- Rust `i128::checked_mul` (both operands already widened): the exact product
when it fits in `i128`, else `None`. -/
def checkedMulI128 (a b : Int) : Option Int :=
  if inI128 (a * b) then some (a * b) else none

/-- Rust `i128::checked_sub`: the exact difference when it fits in `i128`, else `None`. -/
def checkedSubI128 (a b : Int) : Option Int :=
  if inI128 (a - b) then some (a - b) else none

/-- Rust `i128::checked_add`: the exact sum when it fits in `i128`, else `None`. -/
def checkedAddI128 (a b : Int) : Option Int :=
  if inI128 (a + b) then some (a + b) else none

/-- `Position` account: signed size, entry-price checkpoint, funding checkpoint
(all `i64` in the source). -/
structure Position where
  size : Int
  entry_price : Int
  last_funding_rate : Int
deriving Repr, DecidableEq

/-- `UserBalance` account: shared cross-margin collateral (`i128` in the source). -/
structure UserBalance where
  collateral : Int
deriving Repr, DecidableEq

/-- The four variants of `SettlementError`. -/
inductive SettlementError where
  | InvalidOraclePrice
  | InvalidEntryPrice
  | CalculationOverflow
  | FundingRateOutOfBounds
deriving Repr, DecidableEq

/-- `SettlementEvent` as emitted by the program.  The `position_key : Pubkey`
field of the source is an opaque account address copied through unchanged; it
carries no arithmetic content and is omitted from the embedding. -/
structure SettlementEvent where
  oracle_price : Int
  funding_rate : Int
  unrealized_pnl : Int
  funding_payment : Int
  net_settlement : Int
  new_collateral : Int
deriving Repr, DecidableEq

/-- Result of one call to `settle_cross_margin`: the error (if any), the two
accounts as left in storage after the call, and the emitted event (if any). -/
structure SettleResult where
  err : Option SettlementError
  position : Position
  balance : UserBalance
  event : Option SettlementEvent
deriving Repr, DecidableEq

/-- `MAX_FUNDING_RATE = i64::MAX / 1_000_000` (Rust integer division). -/
def MAX_FUNDING_RATE : Int := 9223372036854775807 / 1000000

/-- The arithmetic pipeline of `settle_cross_margin` (lib.rs lines 63-132):
the five checked arithmetic steps in source order (price delta, unrealized
PnL, funding delta, funding payment, net settlement, new collateral), then
the three state writes (collateral, entry-price checkpoint, funding
checkpoint) and the event.  Every failed checked step returns
`CalculationOverflow` with the accounts untouched, exactly as the `?`
early returns do in the source. -/
def settle_arith (position : Position) (balance : UserBalance)
    (oracle_price funding_rate : Int) : SettleResult :=
  match checkedSubI64 oracle_price position.entry_price with
  | none => ⟨some .CalculationOverflow, position, balance, none⟩
  | some price_delta =>
    match checkedMulI128 price_delta position.size with
    | none => ⟨some .CalculationOverflow, position, balance, none⟩
    | some unrealized_pnl =>
      match checkedSubI64 funding_rate position.last_funding_rate with
      | none => ⟨some .CalculationOverflow, position, balance, none⟩
      | some funding_delta =>
        match checkedMulI128 funding_delta position.size with
        | none => ⟨some .CalculationOverflow, position, balance, none⟩
        | some funding_payment =>
          match checkedSubI128 unrealized_pnl funding_payment with
          | none => ⟨some .CalculationOverflow, position, balance, none⟩
          | some net_settlement =>
            match checkedAddI128 balance.collateral net_settlement with
            | none => ⟨some .CalculationOverflow, position, balance, none⟩
            | some new_collateral =>
              ⟨none,
               { position with
                   entry_price := oracle_price,
                   last_funding_rate := funding_rate },
               { collateral := new_collateral },
               some ⟨oracle_price, funding_rate, unrealized_pnl,
                     funding_payment, net_settlement, new_collateral⟩⟩

/-- Shallow embedding of `settle_cross_margin` (lib.rs lines 21-135), in the
source's exact order: oracle-price check, entry-price check, flat-position
short-circuit, the two funding-rate bound checks, then the arithmetic
pipeline `settle_arith`. -/
def settle_cross_margin (position : Position) (balance : UserBalance)
    (oracle_price funding_rate : Int) : SettleResult :=
  if 0 < oracle_price then
    if 0 < position.entry_price then
      if position.size = 0 then
        ⟨none, { position with last_funding_rate := funding_rate }, balance, none⟩
      else
        if |funding_rate| ≤ MAX_FUNDING_RATE then
          if |position.last_funding_rate| ≤ MAX_FUNDING_RATE then
            settle_arith position balance oracle_price funding_rate
          else ⟨some .FundingRateOutOfBounds, position, balance, none⟩
        else ⟨some .FundingRateOutOfBounds, position, balance, none⟩
    else ⟨some .InvalidEntryPrice, position, balance, none⟩
  else ⟨some .InvalidOraclePrice, position, balance, none⟩

/-! ### Characterization lemmas

The claims are all consequences of an exhaustive case analysis of
`settle_cross_margin`.  We prove it once, as `settle_shape`, and derive the
individual claims from it. -/

lemma checkedSubI64_eq_some {a b : Int} (h : inI64 (a - b)) :
    checkedSubI64 a b = some (a - b) := by
  unfold checkedSubI64; rw [if_pos h]

lemma checkedSubI64_eq_none {a b : Int} (h : ¬ inI64 (a - b)) :
    checkedSubI64 a b = none := by
  unfold checkedSubI64; rw [if_neg h]

lemma checkedMulI128_eq_some {a b : Int} (h : inI128 (a * b)) :
    checkedMulI128 a b = some (a * b) := by
  unfold checkedMulI128; rw [if_pos h]

lemma checkedMulI128_eq_none {a b : Int} (h : ¬ inI128 (a * b)) :
    checkedMulI128 a b = none := by
  unfold checkedMulI128; rw [if_neg h]

lemma checkedSubI128_eq_some {a b : Int} (h : inI128 (a - b)) :
    checkedSubI128 a b = some (a - b) := by
  unfold checkedSubI128; rw [if_pos h]

lemma checkedSubI128_eq_none {a b : Int} (h : ¬ inI128 (a - b)) :
    checkedSubI128 a b = none := by
  unfold checkedSubI128; rw [if_neg h]

lemma checkedAddI128_eq_some {a b : Int} (h : inI128 (a + b)) :
    checkedAddI128 a b = some (a + b) := by
  unfold checkedAddI128; rw [if_pos h]

lemma checkedAddI128_eq_none {a b : Int} (h : ¬ inI128 (a + b)) :
    checkedAddI128 a b = none := by
  unfold checkedAddI128; rw [if_neg h]

/-- When every checked step fits its width, `settle_arith` succeeds and the
computed quantities are the exact integer expressions. -/
lemma settle_arith_success (p : Position) (b : UserBalance) (o f : Int)
    (h1 : inI64 (o - p.entry_price))
    (h2 : inI128 ((o - p.entry_price) * p.size))
    (h3 : inI64 (f - p.last_funding_rate))
    (h4 : inI128 ((f - p.last_funding_rate) * p.size))
    (h5 : inI128 ((o - p.entry_price) * p.size - (f - p.last_funding_rate) * p.size))
    (h6 : inI128 (b.collateral +
            ((o - p.entry_price) * p.size - (f - p.last_funding_rate) * p.size))) :
    settle_arith p b o f =
      ⟨none, ⟨p.size, o, f⟩,
       ⟨b.collateral + ((o - p.entry_price) * p.size - (f - p.last_funding_rate) * p.size)⟩,
       some ⟨o, f, (o - p.entry_price) * p.size, (f - p.last_funding_rate) * p.size,
             (o - p.entry_price) * p.size - (f - p.last_funding_rate) * p.size,
             b.collateral +
               ((o - p.entry_price) * p.size - (f - p.last_funding_rate) * p.size)⟩⟩ := by
  simp [settle_arith, checkedSubI64_eq_some h1, checkedMulI128_eq_some h2,
        checkedSubI64_eq_some h3, checkedMulI128_eq_some h4,
        checkedSubI128_eq_some h5, checkedAddI128_eq_some h6]

/-- `settle_arith` either fails with `CalculationOverflow` leaving both
accounts untouched and no event, or every checked step fits and it returns
the exact success record. -/
lemma settle_arith_shape (p : Position) (b : UserBalance) (o f : Int) :
    settle_arith p b o f = ⟨some .CalculationOverflow, p, b, none⟩ ∨
    (inI64 (o - p.entry_price) ∧
     inI128 ((o - p.entry_price) * p.size) ∧
     inI64 (f - p.last_funding_rate) ∧
     inI128 ((f - p.last_funding_rate) * p.size) ∧
     inI128 ((o - p.entry_price) * p.size - (f - p.last_funding_rate) * p.size) ∧
     inI128 (b.collateral +
       ((o - p.entry_price) * p.size - (f - p.last_funding_rate) * p.size)) ∧
     settle_arith p b o f =
      ⟨none, ⟨p.size, o, f⟩,
       ⟨b.collateral + ((o - p.entry_price) * p.size - (f - p.last_funding_rate) * p.size)⟩,
       some ⟨o, f, (o - p.entry_price) * p.size, (f - p.last_funding_rate) * p.size,
             (o - p.entry_price) * p.size - (f - p.last_funding_rate) * p.size,
             b.collateral +
               ((o - p.entry_price) * p.size - (f - p.last_funding_rate) * p.size)⟩⟩) := by
  by_cases h1 : inI64 (o - p.entry_price)
  case neg => exact Or.inl (by simp [settle_arith, checkedSubI64_eq_none h1])
  by_cases h2 : inI128 ((o - p.entry_price) * p.size)
  case neg => exact Or.inl (by simp [settle_arith, checkedSubI64_eq_some h1, checkedMulI128_eq_none h2])
  by_cases h3 : inI64 (f - p.last_funding_rate)
  case neg =>
    exact Or.inl (by simp [settle_arith, checkedSubI64_eq_some h1, checkedMulI128_eq_some h2, checkedSubI64_eq_none h3])
  by_cases h4 : inI128 ((f - p.last_funding_rate) * p.size)
  case neg =>
    exact Or.inl (by simp [settle_arith, checkedSubI64_eq_some h1, checkedMulI128_eq_some h2, checkedSubI64_eq_some h3, checkedMulI128_eq_none h4])
  by_cases h5 : inI128 ((o - p.entry_price) * p.size - (f - p.last_funding_rate) * p.size)
  case neg =>
    exact Or.inl (by
      simp [settle_arith, checkedSubI64_eq_some h1, checkedMulI128_eq_some h2, checkedSubI64_eq_some h3, checkedMulI128_eq_some h4, checkedSubI128_eq_none h5])
  by_cases h6 : inI128 (b.collateral +
      ((o - p.entry_price) * p.size - (f - p.last_funding_rate) * p.size))
  case neg =>
    exact Or.inl (by
      simp [settle_arith, checkedSubI64_eq_some h1, checkedMulI128_eq_some h2,
            checkedSubI64_eq_some h3, checkedMulI128_eq_some h4,
            checkedSubI128_eq_some h5, checkedAddI128_eq_none h6])
  exact Or.inr ⟨h1, h2, h3, h4, h5, h6, settle_arith_success p b o f h1 h2 h3 h4 h5 h6⟩

/-- Once all five validations pass on a non-flat position, the call is the
arithmetic pipeline. -/
lemma settle_nonflat (p : Position) (b : UserBalance) (o f : Int)
    (ho : 0 < o) (he : 0 < p.entry_price) (hs : p.size ≠ 0)
    (hf : |f| ≤ MAX_FUNDING_RATE) (hl : |p.last_funding_rate| ≤ MAX_FUNDING_RATE) :
    settle_cross_margin p b o f = settle_arith p b o f := by
  simp [settle_cross_margin, ho, he, hs, hf, hl]

/-- Exhaustive shape of one call: an error with both accounts untouched and
no event; the flat-position short-circuit; or the fully-validated success
record with exact arithmetic. -/
lemma settle_shape (p : Position) (b : UserBalance) (o f : Int) :
    (∃ e, settle_cross_margin p b o f = ⟨some e, p, b, none⟩) ∨
    (p.size = 0 ∧ 0 < o ∧ 0 < p.entry_price ∧
      settle_cross_margin p b o f = ⟨none, ⟨p.size, p.entry_price, f⟩, b, none⟩) ∨
    (p.size ≠ 0 ∧ 0 < o ∧ 0 < p.entry_price ∧
     |f| ≤ MAX_FUNDING_RATE ∧ |p.last_funding_rate| ≤ MAX_FUNDING_RATE ∧
     inI64 (o - p.entry_price) ∧
     inI128 ((o - p.entry_price) * p.size) ∧
     inI64 (f - p.last_funding_rate) ∧
     inI128 ((f - p.last_funding_rate) * p.size) ∧
     inI128 ((o - p.entry_price) * p.size - (f - p.last_funding_rate) * p.size) ∧
     inI128 (b.collateral +
       ((o - p.entry_price) * p.size - (f - p.last_funding_rate) * p.size)) ∧
     settle_cross_margin p b o f =
      ⟨none, ⟨p.size, o, f⟩,
       ⟨b.collateral + ((o - p.entry_price) * p.size - (f - p.last_funding_rate) * p.size)⟩,
       some ⟨o, f, (o - p.entry_price) * p.size, (f - p.last_funding_rate) * p.size,
             (o - p.entry_price) * p.size - (f - p.last_funding_rate) * p.size,
             b.collateral +
               ((o - p.entry_price) * p.size - (f - p.last_funding_rate) * p.size)⟩⟩) := by
  by_cases ho : 0 < o
  case neg =>
    exact Or.inl ⟨.InvalidOraclePrice, by simp [settle_cross_margin, ho]⟩
  by_cases he : 0 < p.entry_price
  case neg =>
    exact Or.inl ⟨.InvalidEntryPrice, by simp [settle_cross_margin, ho, he]⟩
  by_cases hs : p.size = 0
  case pos =>
    refine Or.inr (Or.inl ⟨hs, ho, he, ?_⟩)
    simp [settle_cross_margin, ho, he, hs]
  by_cases hf : |f| ≤ MAX_FUNDING_RATE
  case neg =>
    exact Or.inl ⟨.FundingRateOutOfBounds, by simp [settle_cross_margin, ho, he, hs, hf]⟩
  by_cases hl : |p.last_funding_rate| ≤ MAX_FUNDING_RATE
  case neg =>
    exact Or.inl
      ⟨.FundingRateOutOfBounds, by simp [settle_cross_margin, ho, he, hs, hf, hl]⟩
  rw [settle_nonflat p b o f ho he hs hf hl] at *
  rcases settle_arith_shape p b o f with hErr | ⟨h1, h2, h3, h4, h5, h6, hOk⟩
  · exact Or.inl ⟨.CalculationOverflow, hErr⟩
  · exact Or.inr (Or.inr ⟨hs, ho, he, hf, hl, h1, h2, h3, h4, h5, h6, hOk⟩)

/-- Settling a position whose checkpoints already equal the call's inputs
(entry price = oracle price, funding checkpoint = funding rate) succeeds with
zero deltas and changes nothing. -/
lemma settle_stable (s o f C : Int) (hs : s ≠ 0) (ho : 0 < o)
    (hf : |f| ≤ MAX_FUNDING_RATE) (hC : inI128 C) :
    settle_cross_margin ⟨s, o, f⟩ ⟨C⟩ o f
      = ⟨none, ⟨s, o, f⟩, ⟨C⟩, some ⟨o, f, 0, 0, 0, C⟩⟩ := by
  rw [settle_nonflat ⟨s, o, f⟩ ⟨C⟩ o f ho ho hs hf hf]
  have h1 : inI64 (o - (⟨s, o, f⟩ : Position).entry_price) := by
    simp only [sub_self]; decide
  have h2 : inI128 ((o - (⟨s, o, f⟩ : Position).entry_price)
      * (⟨s, o, f⟩ : Position).size) := by
    simp only [sub_self, zero_mul]; decide
  have h3 : inI64 (f - (⟨s, o, f⟩ : Position).last_funding_rate) := by
    simp only [sub_self]; decide
  have h4 : inI128 ((f - (⟨s, o, f⟩ : Position).last_funding_rate)
      * (⟨s, o, f⟩ : Position).size) := by
    simp only [sub_self, zero_mul]; decide
  have h5 : inI128 ((o - (⟨s, o, f⟩ : Position).entry_price)
        * (⟨s, o, f⟩ : Position).size
      - (f - (⟨s, o, f⟩ : Position).last_funding_rate)
        * (⟨s, o, f⟩ : Position).size) := by
    simp only [sub_self, zero_mul]; decide
  have h6 : inI128 ((⟨C⟩ : UserBalance).collateral
      + ((o - (⟨s, o, f⟩ : Position).entry_price) * (⟨s, o, f⟩ : Position).size
        - (f - (⟨s, o, f⟩ : Position).last_funding_rate)
          * (⟨s, o, f⟩ : Position).size)) := by
    simp only [sub_self, zero_mul, sub_zero, add_zero]; exact hC
  rw [settle_arith_success ⟨s, o, f⟩ ⟨C⟩ o f h1 h2 h3 h4 h5 h6]
  simp

/-! ### Claims -/

/-- C1: every successful call of `settle_cross_margin` on a non-flat position
adds exactly `(oracle_price - entry_price) * size - (funding_rate -
last_funding_rate) * size` to the collateral, computed exactly in wide signed
integer arithmetic, and afterwards `entry_price = oracle_price`,
`last_funding_rate = funding_rate` and `size` is unchanged. -/
theorem C1_settlement_formula (p : Position) (b : UserBalance) (o f : Int)
    (hs : p.size ≠ 0) (h : (settle_cross_margin p b o f).err = none) :
    (settle_cross_margin p b o f).balance.collateral
        = b.collateral + (o - p.entry_price) * p.size
            - (f - p.last_funding_rate) * p.size ∧
    (settle_cross_margin p b o f).position.entry_price = o ∧
    (settle_cross_margin p b o f).position.last_funding_rate = f ∧
    (settle_cross_margin p b o f).position.size = p.size := by
  rcases settle_shape p b o f with ⟨e, hE⟩ | ⟨h0, _, _, _⟩ |
    ⟨_, _, _, _, _, _, _, _, _, _, _, hE⟩
  · rw [hE] at h; simp at h
  · exact absurd h0 hs
  · rw [hE]
    refine ⟨?_, rfl, rfl, rfl⟩
    simp only
    ring

/-- Witness for C1 at the spec's first concrete scenario (long, entry 1000,
size 100, collateral 10000, price moves to 1100). -/
theorem C1_witness :
    (settle_cross_margin ⟨100, 1000, 0⟩ ⟨10000⟩ 1100 0).balance.collateral
        = 10000 + (1100 - 1000) * 100 - (0 - 0) * 100 ∧
    (settle_cross_margin ⟨100, 1000, 0⟩ ⟨10000⟩ 1100 0).position.entry_price = 1100 ∧
    (settle_cross_margin ⟨100, 1000, 0⟩ ⟨10000⟩ 1100 0).position.last_funding_rate = 0 ∧
    (settle_cross_margin ⟨100, 1000, 0⟩ ⟨10000⟩ 1100 0).position.size = 100 :=
  C1_settlement_formula ⟨100, 1000, 0⟩ ⟨10000⟩ 1100 0 (by decide) (by decide)

/-- C2 counterexample: on a flat position (`size = 0`) the short-circuit runs
before the funding-rate bound check, so a call with
`|funding_rate| > MAX_FUNDING_RATE` succeeds and mutates the position's
funding checkpoint instead of failing with `FundingRateOutOfBounds`. -/
theorem C2_counterexample :
    MAX_FUNDING_RATE < |(MAX_FUNDING_RATE + 1 : Int)| ∧
    (settle_cross_margin ⟨0, 1, 0⟩ ⟨0⟩ 1 (MAX_FUNDING_RATE + 1)).err = none ∧
    (settle_cross_margin ⟨0, 1, 0⟩ ⟨0⟩ 1
        (MAX_FUNDING_RATE + 1)).position.last_funding_rate ≠ 0 := by
  refine ⟨by decide, by decide, by decide⟩

/-- C2 as amended: for a call on a position with `size ≠ 0` that passes the
oracle-price and entry-price checks, an out-of-bounds incoming or stored
funding rate makes the call fail with `FundingRateOutOfBounds` and mutates
nothing. -/
theorem C2_funding_gate (p : Position) (b : UserBalance) (o f : Int)
    (hs : p.size ≠ 0) (ho : 0 < o) (he : 0 < p.entry_price)
    (hf : MAX_FUNDING_RATE < |f| ∨ MAX_FUNDING_RATE < |p.last_funding_rate|) :
    settle_cross_margin p b o f = ⟨some .FundingRateOutOfBounds, p, b, none⟩ := by
  by_cases h1 : |f| ≤ MAX_FUNDING_RATE
  · have h2 : ¬ |p.last_funding_rate| ≤ MAX_FUNDING_RATE := by
      rcases hf with hf | hf
      · exact absurd h1 (not_le.mpr hf)
      · exact not_le.mpr hf
    simp [settle_cross_margin, ho, he, hs, h1, h2]
  · simp [settle_cross_margin, ho, he, hs, h1]

/-- Witness for the amended C2 on a concrete non-flat position. -/
theorem C2_funding_gate_witness :
    settle_cross_margin ⟨7, 1000, 3⟩ ⟨42⟩ 1000 (MAX_FUNDING_RATE + 1)
      = ⟨some .FundingRateOutOfBounds, ⟨7, 1000, 3⟩, ⟨42⟩, none⟩ :=
  C2_funding_gate ⟨7, 1000, 3⟩ ⟨42⟩ 1000 (MAX_FUNDING_RATE + 1)
    (by decide) (by decide) (by decide) (Or.inl (by decide))

/-- C4: whenever `settle_cross_margin` returns any of the four errors, every
field of the position (`size`, `entry_price`, `last_funding_rate`) and of the
balance (`collateral`) is exactly as before the call (and no event is
emitted). -/
theorem C4_failure_atomicity (p : Position) (b : UserBalance) (o f : Int)
    (e : SettlementError) (h : (settle_cross_margin p b o f).err = some e) :
    (settle_cross_margin p b o f).position.size = p.size ∧
    (settle_cross_margin p b o f).position.entry_price = p.entry_price ∧
    (settle_cross_margin p b o f).position.last_funding_rate = p.last_funding_rate ∧
    (settle_cross_margin p b o f).balance.collateral = b.collateral ∧
    (settle_cross_margin p b o f).event = none := by
  rcases settle_shape p b o f with ⟨e2, hE⟩ | ⟨_, _, _, hE⟩ |
    ⟨_, _, _, _, _, _, _, _, _, _, _, hE⟩
  · rw [hE]; exact ⟨rfl, rfl, rfl, rfl, rfl⟩
  · rw [hE] at h; simp at h
  · rw [hE] at h; simp at h

/-- Witness for C4 at a concrete failing call (non-positive oracle price). -/
theorem C4_witness :
    (settle_cross_margin ⟨5, 1000, 7⟩ ⟨42⟩ 0 3).position.size = 5 ∧
    (settle_cross_margin ⟨5, 1000, 7⟩ ⟨42⟩ 0 3).position.entry_price = 1000 ∧
    (settle_cross_margin ⟨5, 1000, 7⟩ ⟨42⟩ 0 3).position.last_funding_rate = 7 ∧
    (settle_cross_margin ⟨5, 1000, 7⟩ ⟨42⟩ 0 3).balance.collateral = 42 ∧
    (settle_cross_margin ⟨5, 1000, 7⟩ ⟨42⟩ 0 3).event = none :=
  C4_failure_atomicity ⟨5, 1000, 7⟩ ⟨42⟩ 0 3 .InvalidOraclePrice (by decide)

/-- C5 counterexample: the oracle-price and entry-price validations run before
the flat-position short-circuit, so a flat position settled with a
non-positive oracle price fails (and its funding checkpoint is not updated)
instead of returning success as the claim states for any `oracle_price`. -/
theorem C5_counterexample :
    (settle_cross_margin ⟨0, 1000, 0⟩ ⟨10000⟩ 0 5).err
        = some .InvalidOraclePrice ∧
    (settle_cross_margin ⟨0, 1000, 0⟩ ⟨10000⟩ 0 5).position.last_funding_rate
        ≠ 5 := by
  refine ⟨by decide, by decide⟩

/-- C5 as amended: for a flat position (`size = 0`) with positive oracle and
entry prices, the call succeeds, the collateral and all other fields are
unchanged, only `last_funding_rate` is set to `funding_rate`, and no event is
emitted. -/
theorem C5_flat_position (p : Position) (b : UserBalance) (o f : Int)
    (hs : p.size = 0) (ho : 0 < o) (he : 0 < p.entry_price) :
    settle_cross_margin p b o f = ⟨none, ⟨p.size, p.entry_price, f⟩, b, none⟩ := by
  simp [settle_cross_margin, ho, he, hs]

/-- Witness for the amended C5 on a concrete flat position. -/
theorem C5_flat_position_witness :
    settle_cross_margin ⟨0, 1000, 123⟩ ⟨77⟩ 5 9 = ⟨none, ⟨0, 1000, 9⟩, ⟨77⟩, none⟩ :=
  C5_flat_position ⟨0, 1000, 123⟩ ⟨77⟩ 5 9 (by decide) (by decide) (by decide)

/-- C3: if a first call of `settle_cross_margin` succeeds, a second call on
the resulting state with the same `oracle_price` and `funding_rate` also
succeeds and leaves the collateral and the whole position unchanged. -/
theorem C3_idempotency (p : Position) (b : UserBalance) (o f : Int)
    (h : (settle_cross_margin p b o f).err = none) :
    (settle_cross_margin (settle_cross_margin p b o f).position
        (settle_cross_margin p b o f).balance o f).err = none ∧
    (settle_cross_margin (settle_cross_margin p b o f).position
        (settle_cross_margin p b o f).balance o f).position
      = (settle_cross_margin p b o f).position ∧
    (settle_cross_margin (settle_cross_margin p b o f).position
        (settle_cross_margin p b o f).balance o f).balance
      = (settle_cross_margin p b o f).balance := by
  rcases settle_shape p b o f with ⟨e, hE⟩ | ⟨h0, ho, he, hE⟩ |
    ⟨hs, ho, he, hf, hl, h1, h2, h3, h4, h5, h6, hE⟩
  · rw [hE] at h; simp at h
  · have hflat : settle_cross_margin ⟨p.size, p.entry_price, f⟩ b o f
        = ⟨none, ⟨p.size, p.entry_price, f⟩, b, none⟩ := by
      simp [settle_cross_margin, ho, he, h0]
    rw [hE]; simp [hflat]
  · have hrep := settle_stable p.size o f
      (b.collateral + ((o - p.entry_price) * p.size
        - (f - p.last_funding_rate) * p.size)) hs ho hf h6
    rw [hE]; simp [hrep]

/-- Witness for C3 at a concrete successful settlement. -/
theorem C3_witness :
    (settle_cross_margin (settle_cross_margin ⟨100, 1000, 0⟩ ⟨10000⟩ 1100 0).position
        (settle_cross_margin ⟨100, 1000, 0⟩ ⟨10000⟩ 1100 0).balance 1100 0).err = none ∧
    (settle_cross_margin (settle_cross_margin ⟨100, 1000, 0⟩ ⟨10000⟩ 1100 0).position
        (settle_cross_margin ⟨100, 1000, 0⟩ ⟨10000⟩ 1100 0).balance 1100 0).position
      = (settle_cross_margin ⟨100, 1000, 0⟩ ⟨10000⟩ 1100 0).position ∧
    (settle_cross_margin (settle_cross_margin ⟨100, 1000, 0⟩ ⟨10000⟩ 1100 0).position
        (settle_cross_margin ⟨100, 1000, 0⟩ ⟨10000⟩ 1100 0).balance 1100 0).balance
      = (settle_cross_margin ⟨100, 1000, 0⟩ ⟨10000⟩ 1100 0).balance :=
  C3_idempotency ⟨100, 1000, 0⟩ ⟨10000⟩ 1100 0 (by decide)

/-- C10: after a successful non-flat settlement the stored position again
satisfies the validation preconditions (`entry_price > 0`,
`|last_funding_rate| ≤ MAX_FUNDING_RATE`), so an immediately repeated
settlement with the same inputs cannot fail any validation. -/
theorem C10_precondition_reestablished (p : Position) (b : UserBalance) (o f : Int)
    (hs : p.size ≠ 0) (h : (settle_cross_margin p b o f).err = none) :
    0 < (settle_cross_margin p b o f).position.entry_price ∧
    |(settle_cross_margin p b o f).position.last_funding_rate| ≤ MAX_FUNDING_RATE ∧
    (settle_cross_margin (settle_cross_margin p b o f).position
        (settle_cross_margin p b o f).balance o f).err ≠ some .InvalidOraclePrice ∧
    (settle_cross_margin (settle_cross_margin p b o f).position
        (settle_cross_margin p b o f).balance o f).err ≠ some .InvalidEntryPrice ∧
    (settle_cross_margin (settle_cross_margin p b o f).position
        (settle_cross_margin p b o f).balance o f).err ≠ some .FundingRateOutOfBounds := by
  rcases settle_shape p b o f with ⟨e, hE⟩ | ⟨h0, _, _, _⟩ |
    ⟨hs2, ho, he, hf, hl, h1, h2, h3, h4, h5, h6, hE⟩
  · rw [hE] at h; simp at h
  · exact absurd h0 hs
  · have hrep := settle_stable p.size o f
      (b.collateral + ((o - p.entry_price) * p.size
        - (f - p.last_funding_rate) * p.size)) hs2 ho hf h6
    rw [hE]; simp [hrep, ho, hf]

/-- Witness for C10 at a concrete successful non-flat settlement. -/
theorem C10_witness :
    0 < (settle_cross_margin ⟨100, 1000, 0⟩ ⟨10000⟩ 1100 0).position.entry_price ∧
    |(settle_cross_margin ⟨100, 1000, 0⟩ ⟨10000⟩
        1100 0).position.last_funding_rate| ≤ MAX_FUNDING_RATE ∧
    (settle_cross_margin (settle_cross_margin ⟨100, 1000, 0⟩ ⟨10000⟩ 1100 0).position
        (settle_cross_margin ⟨100, 1000, 0⟩ ⟨10000⟩ 1100 0).balance 1100 0).err
      ≠ some .InvalidOraclePrice ∧
    (settle_cross_margin (settle_cross_margin ⟨100, 1000, 0⟩ ⟨10000⟩ 1100 0).position
        (settle_cross_margin ⟨100, 1000, 0⟩ ⟨10000⟩ 1100 0).balance 1100 0).err
      ≠ some .InvalidEntryPrice ∧
    (settle_cross_margin (settle_cross_margin ⟨100, 1000, 0⟩ ⟨10000⟩ 1100 0).position
        (settle_cross_margin ⟨100, 1000, 0⟩ ⟨10000⟩ 1100 0).balance 1100 0).err
      ≠ some .FundingRateOutOfBounds :=
  C10_precondition_reestablished ⟨100, 1000, 0⟩ ⟨10000⟩ 1100 0 (by decide) (by decide)

/-- C6: for a successful settlement with `funding_rate` equal to the stored
`last_funding_rate`, a price rise strictly increases collateral for a long,
strictly decreases it for a short, and the long's gain equals the short's
loss for the mirrored position of equal absolute size. -/
theorem C6_sign_correctness (p : Position) (b : UserBalance) (o f : Int)
    (hfr : f = p.last_funding_rate)
    (h : (settle_cross_margin p b o f).err = none) (hup : p.entry_price < o) :
    (0 < p.size → b.collateral < (settle_cross_margin p b o f).balance.collateral) ∧
    (p.size < 0 → (settle_cross_margin p b o f).balance.collateral < b.collateral) ∧
    ((settle_cross_margin ⟨-p.size, p.entry_price, p.last_funding_rate⟩ b o f).err = none →
      (settle_cross_margin p b o f).balance.collateral - b.collateral
        = b.collateral - (settle_cross_margin
            ⟨-p.size, p.entry_price, p.last_funding_rate⟩ b o f).balance.collateral) := by
  subst hfr
  rcases settle_shape p b o p.last_funding_rate with ⟨e, hE⟩ | ⟨h0, ho, he, hE⟩ |
    ⟨hs, ho, he, hf, hl, h1, h2, h3, h4, h5, h6, hE⟩
  · rw [hE] at h; simp at h
  · have hflat : settle_cross_margin
        ⟨-p.size, p.entry_price, p.last_funding_rate⟩ b o p.last_funding_rate
        = ⟨none, ⟨-p.size, p.entry_price, p.last_funding_rate⟩, b, none⟩ := by
      simp [settle_cross_margin, ho, he, h0]
    rw [hE, hflat]
    refine ⟨fun hpos => by omega, fun hneg => by omega, fun _ => by simp⟩
  · rw [hE]
    have hdelta : (0 : Int) < o - p.entry_price := by omega
    refine ⟨?_, ?_, ?_⟩
    · intro hpos
      have hprod : (0 : Int) < (o - p.entry_price) * p.size := mul_pos hdelta hpos
      simp only [sub_self, zero_mul, sub_zero]
      linarith
    · intro hneg
      have hprod : (o - p.entry_price) * p.size < 0 := mul_neg_of_pos_of_neg hdelta hneg
      simp only [sub_self, zero_mul, sub_zero]
      linarith
    · intro hm
      rcases settle_shape ⟨-p.size, p.entry_price, p.last_funding_rate⟩ b o
          p.last_funding_rate with ⟨e2, hE2⟩ | ⟨h02, _, _, _⟩ |
        ⟨_, _, _, _, _, _, _, _, _, _, _, hE2⟩
      · rw [hE2] at hm; simp at hm
      · simp only at h02; omega
      · rw [hE2]
        simp only
        ring

/-- Witness for C6: long and short of size 100 at entry 1000, price 1100. -/
theorem C6_witness :
    (0 < (100 : Int) → (10000 : Int)
        < (settle_cross_margin ⟨100, 1000, 0⟩ ⟨10000⟩ 1100 0).balance.collateral) ∧
    ((100 : Int) < 0 →
      (settle_cross_margin ⟨100, 1000, 0⟩ ⟨10000⟩ 1100 0).balance.collateral < 10000) ∧
    ((settle_cross_margin ⟨-(100 : Int), 1000, 0⟩ ⟨10000⟩ 1100 0).err = none →
      (settle_cross_margin ⟨100, 1000, 0⟩ ⟨10000⟩ 1100 0).balance.collateral - 10000
        = 10000 - (settle_cross_margin
            ⟨-(100 : Int), 1000, 0⟩ ⟨10000⟩ 1100 0).balance.collateral) :=
  C6_sign_correctness ⟨100, 1000, 0⟩ ⟨10000⟩ 1100 0 (by decide) (by decide) (by decide)

/-- C9: a successful non-flat call emits exactly one event whose fields are
the call's inputs and the exact quantities committed in that call; a failing
call and the flat-position path emit no event. -/
theorem C9_event_emission (p : Position) (b : UserBalance) (o f : Int) :
    (p.size ≠ 0 → (settle_cross_margin p b o f).err = none →
      (settle_cross_margin p b o f).event
        = some ⟨o, f, (o - p.entry_price) * p.size, (f - p.last_funding_rate) * p.size,
                (o - p.entry_price) * p.size - (f - p.last_funding_rate) * p.size,
                (settle_cross_margin p b o f).balance.collateral⟩) ∧
    ((settle_cross_margin p b o f).err ≠ none →
      (settle_cross_margin p b o f).event = none) ∧
    (p.size = 0 → (settle_cross_margin p b o f).err = none →
      (settle_cross_margin p b o f).event = none) := by
  rcases settle_shape p b o f with ⟨e, hE⟩ | ⟨h0, ho, he, hE⟩ |
    ⟨hs, ho, he, hf, hl, h1, h2, h3, h4, h5, h6, hE⟩
  · rw [hE]
    exact ⟨fun _ hnone => by simp at hnone, fun _ => rfl, fun _ _ => rfl⟩
  · rw [hE]
    exact ⟨fun hs => absurd h0 hs, fun _ => rfl, fun _ _ => rfl⟩
  · rw [hE]
    exact ⟨fun _ _ => rfl, fun hne => absurd rfl hne, fun h0 => absurd h0 hs⟩

/-- Witness for C9 at a concrete successful non-flat settlement. -/
theorem C9_witness :
    (settle_cross_margin ⟨100, 1000, 0⟩ ⟨10000⟩ 1100 0).event
      = some ⟨1100, 0, (1100 - 1000) * 100, (0 - 0) * 100,
              (1100 - 1000) * 100 - (0 - 0) * 100,
              (settle_cross_margin ⟨100, 1000, 0⟩ ⟨10000⟩ 1100 0).balance.collateral⟩ :=
  (C9_event_emission ⟨100, 1000, 0⟩ ⟨10000⟩ 1100 0).1 (by decide) (by decide)

lemma inI64_iff {x : Int} :
    inI64 x ↔ -9223372036854775808 ≤ x ∧ x ≤ 9223372036854775807 := by
  unfold inI64 I64_MIN I64_MAX
  norm_num

lemma inI128_iff {x : Int} :
    inI128 x ↔ -170141183460469231731687303715884105728 ≤ x ∧
      x ≤ 170141183460469231731687303715884105727 := by
  unfold inI128 I128_MIN I128_MAX
  norm_num

lemma MAX_FUNDING_RATE_eq : MAX_FUNDING_RATE = 9223372036854 := by decide

/-- C7: on any input that passes all validations, the five guarded arithmetic
steps (price-delta subtraction, PnL multiplication, funding-delta
subtraction, funding-payment multiplication, net-settlement subtraction) all
succeed with their exact values — their `CalculationOverflow` branches are
unreachable — and the call can only fail with `CalculationOverflow` when the
final addition of the net settlement to the collateral leaves the `i128`
range. -/
theorem C7_overflow_unreachable (p : Position) (b : UserBalance) (o f : Int)
    (ho64 : inI64 o) (he64 : inI64 p.entry_price) (hs64 : inI64 p.size)
    (ho : 0 < o) (he : 0 < p.entry_price)
    (hf : |f| ≤ MAX_FUNDING_RATE) (hl : |p.last_funding_rate| ≤ MAX_FUNDING_RATE) :
    checkedSubI64 o p.entry_price = some (o - p.entry_price) ∧
    checkedMulI128 (o - p.entry_price) p.size
      = some ((o - p.entry_price) * p.size) ∧
    checkedSubI64 f p.last_funding_rate = some (f - p.last_funding_rate) ∧
    checkedMulI128 (f - p.last_funding_rate) p.size
      = some ((f - p.last_funding_rate) * p.size) ∧
    checkedSubI128 ((o - p.entry_price) * p.size)
        ((f - p.last_funding_rate) * p.size)
      = some ((o - p.entry_price) * p.size - (f - p.last_funding_rate) * p.size) ∧
    ((settle_cross_margin p b o f).err = none ∨
      ((settle_cross_margin p b o f).err = some .CalculationOverflow ∧
        ¬ inI128 (b.collateral +
          ((o - p.entry_price) * p.size - (f - p.last_funding_rate) * p.size)))) := by
  obtain ⟨ho1, ho2⟩ := inI64_iff.mp ho64
  obtain ⟨he1, he2⟩ := inI64_iff.mp he64
  obtain ⟨hs1, hs2⟩ := inI64_iff.mp hs64
  rw [MAX_FUNDING_RATE_eq] at hf hl
  obtain ⟨hf1, hf2⟩ := abs_le.mp hf
  obtain ⟨hl1, hl2⟩ := abs_le.mp hl
  have h1 : inI64 (o - p.entry_price) := inI64_iff.mpr ⟨by omega, by omega⟩
  have habs_pd : |o - p.entry_price| ≤ 9223372036854775806 :=
    abs_le.mpr ⟨by omega, by omega⟩
  have habs_s : |p.size| ≤ 9223372036854775808 := abs_le.mpr ⟨by omega, by omega⟩
  have habs_pnl : |(o - p.entry_price) * p.size|
      ≤ 85070591730234615847396907784232501248 := by
    rw [abs_mul]
    calc |o - p.entry_price| * |p.size|
        ≤ 9223372036854775806 * 9223372036854775808 :=
          mul_le_mul habs_pd habs_s (abs_nonneg _) (by norm_num)
      _ = 85070591730234615847396907784232501248 := by norm_num
  have h2 : inI128 ((o - p.entry_price) * p.size) := by
    obtain ⟨hA, hB⟩ := abs_le.mp habs_pnl
    exact inI128_iff.mpr ⟨by omega, by omega⟩
  have h3 : inI64 (f - p.last_funding_rate) := inI64_iff.mpr ⟨by omega, by omega⟩
  have habs_fd : |f - p.last_funding_rate| ≤ 18446744073708 :=
    abs_le.mpr ⟨by omega, by omega⟩
  have habs_fp : |(f - p.last_funding_rate) * p.size|
      ≤ 170141183460454920600060967256064 := by
    rw [abs_mul]
    calc |f - p.last_funding_rate| * |p.size|
        ≤ 18446744073708 * 9223372036854775808 :=
          mul_le_mul habs_fd habs_s (abs_nonneg _) (by norm_num)
      _ = 170141183460454920600060967256064 := by norm_num
  have h4 : inI128 ((f - p.last_funding_rate) * p.size) := by
    obtain ⟨hA, hB⟩ := abs_le.mp habs_fp
    exact inI128_iff.mpr ⟨by omega, by omega⟩
  have h5 : inI128 ((o - p.entry_price) * p.size
      - (f - p.last_funding_rate) * p.size) := by
    obtain ⟨hA, hB⟩ := abs_le.mp habs_pnl
    obtain ⟨hC, hD⟩ := abs_le.mp habs_fp
    exact inI128_iff.mpr ⟨by omega, by omega⟩
  refine ⟨checkedSubI64_eq_some h1, checkedMulI128_eq_some h2,
          checkedSubI64_eq_some h3, checkedMulI128_eq_some h4,
          checkedSubI128_eq_some h5, ?_⟩
  by_cases hs : p.size = 0
  · exact Or.inl (by simp [settle_cross_margin, ho, he, hs])
  · have hf64 : |f| ≤ MAX_FUNDING_RATE := by rw [MAX_FUNDING_RATE_eq]; exact hf
    have hl64 : |p.last_funding_rate| ≤ MAX_FUNDING_RATE := by
      rw [MAX_FUNDING_RATE_eq]; exact hl
    rw [settle_nonflat p b o f ho he hs hf64 hl64]
    by_cases h6 : inI128 (b.collateral +
        ((o - p.entry_price) * p.size - (f - p.last_funding_rate) * p.size))
    · exact Or.inl (by rw [settle_arith_success p b o f h1 h2 h3 h4 h5 h6])
    · refine Or.inr ⟨?_, h6⟩
      simp [settle_arith, checkedSubI64_eq_some h1, checkedMulI128_eq_some h2,
            checkedSubI64_eq_some h3, checkedMulI128_eq_some h4,
            checkedSubI128_eq_some h5, checkedAddI128_eq_none h6]

/-- Witness for C7 at a concrete validated input. -/
theorem C7_witness :
    checkedSubI64 1100 1000 = some (1100 - 1000) ∧
    checkedMulI128 (1100 - 1000) 100 = some ((1100 - 1000) * 100) ∧
    checkedSubI64 0 0 = some (0 - 0) ∧
    checkedMulI128 (0 - 0) 100 = some ((0 - 0) * 100) ∧
    checkedSubI128 ((1100 - 1000) * 100) ((0 - 0) * 100)
      = some ((1100 - 1000) * 100 - (0 - 0) * 100) ∧
    ((settle_cross_margin ⟨100, 1000, 0⟩ ⟨10000⟩ 1100 0).err = none ∨
      ((settle_cross_margin ⟨100, 1000, 0⟩ ⟨10000⟩ 1100 0).err
          = some .CalculationOverflow ∧
        ¬ inI128 (10000 + ((1100 - 1000) * 100 - (0 - 0) * 100)))) :=
  C7_overflow_unreachable ⟨100, 1000, 0⟩ ⟨10000⟩ 1100 0
    (by decide) (by decide) (by decide) (by decide) (by decide) (by decide) (by decide)

/-- C8: the PnL multiplication is performed in the wide `i128` type, so for
any `i64` price delta and size — in particular whenever the narrow `i64`
product would overflow — it yields the exact mathematical product, never a
wrapped, truncated, or failed result; at the spec's concrete instance
(size 1000000000, entry 1000, oracle 2000) the call succeeds with
`unrealized_pnl = 1000000000000` exactly. -/
theorem C8_no_silent_overflow :
    (∀ (o e s : Int), inI64 o → inI64 e → inI64 s → ¬ inI64 ((o - e) * s) →
        checkedMulI128 (o - e) s = some ((o - e) * s)) ∧
    (settle_cross_margin ⟨1000000000, 1000, 0⟩ ⟨0⟩ 2000 0).err = none ∧
    (settle_cross_margin ⟨1000000000, 1000, 0⟩ ⟨0⟩ 2000 0).event
      = some ⟨2000, 0, 1000000000000, 0, 1000000000000, 1000000000000⟩ := by
  refine ⟨?_, by decide, by decide⟩
  intro o e s ho64 he64 hs64 _
  obtain ⟨ho1, ho2⟩ := inI64_iff.mp ho64
  obtain ⟨he1, he2⟩ := inI64_iff.mp he64
  obtain ⟨hs1, hs2⟩ := inI64_iff.mp hs64
  have habs_pd : |o - e| ≤ 18446744073709551615 := abs_le.mpr ⟨by omega, by omega⟩
  have habs_s : |s| ≤ 9223372036854775808 := abs_le.mpr ⟨by omega, by omega⟩
  have habs : |(o - e) * s| ≤ 170141183460469231722463931679029329920 := by
    rw [abs_mul]
    calc |o - e| * |s|
        ≤ 18446744073709551615 * 9223372036854775808 :=
          mul_le_mul habs_pd habs_s (abs_nonneg _) (by norm_num)
      _ = 170141183460469231722463931679029329920 := by norm_num
  obtain ⟨hA, hB⟩ := abs_le.mp habs
  exact checkedMulI128_eq_some (inI128_iff.mpr ⟨by omega, by omega⟩)

/-- Witness for C8's universally quantified part at a size/price pair whose
narrow product overflows `i64`. -/
theorem C8_witness :
    checkedMulI128 (2000 - 1000) 9000000000000000000
      = some ((2000 - 1000) * 9000000000000000000) :=
  C8_no_silent_overflow.1 2000 1000 9000000000000000000
    (by decide) (by decide) (by decide) (by decide)

end CrossMargin
